import Mathlib

/-!
Shallow embedding of the jumpcutter real-time stretch-scheduling engine
(`src/content/Controller.js` and the pure helper module) over exact
rationals `ℚ`.  Pure helper functions become Lean functions; the
`Controller`'s mutable instance fields become an explicit
`ControllerState` record threaded through the event handlers.
-/

namespace Jumpcutter

/-- `getRealtimeMargin(margin, speed) = margin / speed`. -/
def getRealtimeMargin (margin speed : ℚ) : ℚ :=
  margin / speed

/-- `getNewLookaheadDelay(intrinsicTimeMargin, soundedSpeed, silenceSpeed)
    = intrinsicTimeMargin / max(soundedSpeed, silenceSpeed)`. -/
def getNewLookaheadDelay (intrinsicTimeMargin soundedSpeed silenceSpeed : ℚ) : ℚ :=
  intrinsicTimeMargin / max soundedSpeed silenceSpeed

/-- `getDelayFromInputToStretcherOutput(lookaheadNodeDelay, stretcherNodeDelay)`:
    sum of the two delays. -/
def getDelayFromInputToStretcherOutput (lookaheadNodeDelay stretcherNodeDelay : ℚ) : ℚ :=
  lookaheadNodeDelay + stretcherNodeDelay

/-- `getTotalDelay` is the name `Controller.js` imports for the same
    lookahead-plus-stretcher delay sum. -/
def getTotalDelay (lookaheadNodeDelay stretcherNodeDelay : ℚ) : ℚ :=
  getDelayFromInputToStretcherOutput lookaheadNodeDelay stretcherNodeDelay

/-- `getNewSnippetDuration(originalRealtimeDuration, originalSpeed, newSpeed)`. -/
def getNewSnippetDuration (originalRealtimeDuration originalSpeed newSpeed : ℚ) : ℚ :=
  let videoSpeedSnippetDuration := originalRealtimeDuration * originalSpeed
  videoSpeedSnippetDuration / newSpeed

/-- `getStretcherDelayChange(snippetOriginalRealtimeDuration, originalSpeed, newSpeed)`:
    the delay the stretcher node gains after slowing down a snippet. -/
def getStretcherDelayChange (snippetOriginalRealtimeDuration originalSpeed newSpeed : ℚ) : ℚ :=
  let snippetNewDuration :=
    getNewSnippetDuration snippetOriginalRealtimeDuration originalSpeed newSpeed
  let delayChange := snippetNewDuration - snippetOriginalRealtimeDuration
  delayChange

/-- `getStretcherSoundedDelay(intrinsicTimeMarginBefore, soundedSpeed, silenceSpeed)`:
    the steady-state stretcher delay while sounded. -/
def getStretcherSoundedDelay (intrinsicTimeMarginBefore soundedSpeed silenceSpeed : ℚ) : ℚ :=
  let realTimeMarginBefore := intrinsicTimeMarginBefore / silenceSpeed
  let delayChange := getStretcherDelayChange realTimeMarginBefore silenceSpeed soundedSpeed
  0 + delayChange

/-- The `StretchInfo` record: one scheduled linear delay ramp,
    `{ startTime, startValue, endTime, endValue }`. -/
structure StretchInfo where
  startTime : ℚ
  startValue : ℚ
  endTime : ℚ
  endValue : ℚ
  deriving DecidableEq, Repr

/-- `getStretchSpeedChangeMultiplier({startValue, endValue, startTime, endTime})
    = ((endTime - startTime) + (startValue - endValue)) / (endTime - startTime)`. -/
def getStretchSpeedChangeMultiplier (stretch : StretchInfo) : ℚ :=
  ((stretch.endTime - stretch.startTime) + (stretch.startValue - stretch.endValue))
    / (stretch.endTime - stretch.startTime)

/-- `getStretcherDelayForInputMoment(momentTime, lookaheadDelay,
    lastScheduledStretcherDelayReset)`: when does the sample that was on the
    input at `momentTime` appear on the stretcher's output?  Contract (from
    the source): only valid when the answer is at or after the schedule's
    start time. -/
def getStretcherDelayForInputMoment (momentTime lookaheadDelay : ℚ)
    (lastScheduledStretcherDelayReset : StretchInfo) : ℚ :=
  let stretch := lastScheduledStretcherDelayReset
  let stretchEndTotalDelay := getDelayFromInputToStretcherOutput lookaheadDelay stretch.endValue
  if momentTime + stretchEndTotalDelay ≥ stretch.endTime then
    momentTime + stretchEndTotalDelay
  else
    let originalTargetMomentOffsetRelativeToStretchStart :=
      momentTime + getDelayFromInputToStretcherOutput lookaheadDelay stretch.startValue
        - stretch.startTime
    let playbackSpeedupDuringStretch := getStretchSpeedChangeMultiplier stretch
    let finalTargetMomentOffsetRelativeToStretchStart :=
      originalTargetMomentOffsetRelativeToStretchStart / playbackSpeedupDuringStretch
    stretch.startTime + finalTargetMomentOffsetRelativeToStretchStart

/-- `getMomentOutputTime` is the name `Controller.js` imports for the
    input-moment to output-time mapping. -/
def getMomentOutputTime (momentTime lookaheadDelay : ℚ)
    (lastScheduledStretcherDelayReset : StretchInfo) : ℚ :=
  getStretcherDelayForInputMoment momentTime lookaheadDelay lastScheduledStretcherDelayReset

/-- `transformSpeed(speed)`: keep the playback rate out of the browser's
    "normal speed" proximity band around `1.0`. -/
def transformSpeed (speed : ℚ) : ℚ :=
  let smallestNonNormalAbove1 : ℚ := 1.002
  let biggestNonNormalBelow1 : ℚ := 1 - (smallestNonNormalAbove1 - 1)
  if biggestNonNormalBelow1 < speed ∧ speed < smallestNonNormalAbove1 then
    if smallestNonNormalAbove1 - speed < speed - biggestNonNormalBelow1 then
      biggestNonNormalBelow1
    else
      smallestNonNormalAbove1
  else
    speed

/-- A settings snapshot, as read by the `Controller`
    (`soundedSpeed`, `silenceSpeed`, `marginBefore`, `volumeThreshold`) plus
    the `durationThreshold` field the spec's data model lists alongside them
    (the full default-settings record is outside the analysed sources; the
    `Controller` itself never reads `settings.durationThreshold`). -/
structure Settings where
  soundedSpeed : ℚ
  silenceSpeed : ℚ
  marginBefore : ℚ
  volumeThreshold : ℚ
  durationThreshold : ℚ
  deriving DecidableEq, Repr

/-- A `Partial<Settings>` argument of `updateSettings`: each key is either
    absent (`none`) or present with a value. -/
structure SettingsPatch where
  soundedSpeed : Option ℚ := none
  silenceSpeed : Option ℚ := none
  marginBefore : Option ℚ := none
  volumeThreshold : Option ℚ := none
  durationThreshold : Option ℚ := none
  deriving DecidableEq, Repr

/-- The JS object spread `{...oldSettings, ...patch}`: keys present in the
    patch override, absent keys keep the old value. -/
def mergeSettings (old : Settings) (patch : SettingsPatch) : Settings where
  soundedSpeed := patch.soundedSpeed.getD old.soundedSpeed
  silenceSpeed := patch.silenceSpeed.getD old.silenceSpeed
  marginBefore := patch.marginBefore.getD old.marginBefore
  volumeThreshold := patch.volumeThreshold.getD old.volumeThreshold
  durationThreshold := patch.durationThreshold.getD old.durationThreshold

/-- The tracked `lastScheduledStretcherDelayReset` object: a `StretchInfo`
    plus `newSpeedStartInputTime` (the `SilenceStart` event time). -/
structure LastReset extends StretchInfo where
  newSpeedStartInputTime : ℚ
  deriving DecidableEq, Repr

/-- The mutable instance state of a `Controller`:
    the host element's `playbackRate`, the current settings snapshot, the
    lookahead node's `delayTime.value`, the stretcher node's base delay, the
    two silence-detector parameters, the tracked last schedule, and the
    lifecycle flags used by `init`/`destroy`. -/
structure ControllerState where
  playbackRate : ℚ
  settings : Settings
  lookaheadDelayValue : ℚ
  stretcherDelay : ℚ
  volumeThresholdParam : ℚ
  durationThresholdParam : ℚ
  lastScheduledStretcherDelayReset : Option LastReset
  initialized : Bool
  portClosed : Bool
  deriving DecidableEq, Repr

/-- `Controller._getSilenceDetectorNodeDurationThreshold(marginBefore, soundedSpeed)`. -/
def getSilenceDetectorNodeDurationThreshold (marginBefore soundedSpeed : ℚ) : ℚ :=
  getRealtimeMargin marginBefore soundedSpeed

/-- `Controller._setStateAccordingToSettings(newSettings, oldSettings)`.
    With no `oldSettings` the rate is forced to `this.settings.soundedSpeed`;
    otherwise `['silenceSpeed', 'soundedSpeed'].find(...)` looks for the
    setting the current rate equals (`silenceSpeed` first) and switches to
    the corresponding new value.  Note the stretcher delay is computed from
    `this.settings` (the instance field), not from `newSettings`. -/
def setStateAccordingToSettings (st : ControllerState) (newSettings : Settings)
    (oldSettings : Option Settings) : ControllerState :=
  let st1 :=
    match oldSettings with
    | none => { st with playbackRate := st.settings.soundedSpeed }
    | some old =>
        if st.playbackRate = old.silenceSpeed then
          { st with playbackRate := newSettings.silenceSpeed }
        else if st.playbackRate = old.soundedSpeed then
          { st with playbackRate := newSettings.soundedSpeed }
        else
          st
  { st1 with
    volumeThresholdParam := newSettings.volumeThreshold
    durationThresholdParam :=
      getSilenceDetectorNodeDurationThreshold newSettings.marginBefore newSettings.soundedSpeed
    lookaheadDelayValue :=
      getNewLookaheadDelay newSettings.marginBefore newSettings.soundedSpeed
        newSettings.silenceSpeed
    stretcherDelay :=
      getStretcherSoundedDelay st.settings.marginBefore st.settings.soundedSpeed
        st.settings.silenceSpeed }

/-- `Controller.updateSettings(newChangedSettings)`: merge the patch over the
    current snapshot, run `_setStateAccordingToSettings(new, old)` while
    `this.settings` is still the old snapshot, then replace `this.settings`. -/
def updateSettings (st : ControllerState) (newChangedSettings : SettingsPatch) :
    ControllerState :=
  let oldSettings := st.settings
  let newSettings := mergeSettings st.settings newChangedSettings
  let st1 := setStateAccordingToSettings st newSettings (some oldSettings)
  { st1 with settings := newSettings }

/-- The `Controller` constructor plus the state-relevant part of `init()`:
    the rate is set to `soundedSpeed`, the silence detector is created with
    the duration-threshold parameter derived from the settings,
    `_setStateAccordingToSettings(this.settings)` runs with no old settings,
    and no stretch has been scheduled yet. -/
def initController (hostPlaybackRate : ℚ) (settings : Settings) : ControllerState :=
  let st0 : ControllerState :=
    { playbackRate := settings.soundedSpeed
      settings := settings
      lookaheadDelayValue := 0
      stretcherDelay := 0
      volumeThresholdParam := 0
      durationThresholdParam :=
        getSilenceDetectorNodeDurationThreshold settings.marginBefore settings.soundedSpeed
      lastScheduledStretcherDelayReset := none
      initialized := false
      portClosed := false }
  let _ := hostPlaybackRate
  let st1 := setStateAccordingToSettings st0 settings none
  { st1 with initialized := true }

/-- `Controller.destroy()`: it awaits `this._initPromise` (so it completes
    only once initialization has), closes the silence detector's message
    port and sets the host's playback rate to the constant `1`. -/
def destroy (st : ControllerState) : Option ControllerState :=
  if st.initialized then
    some { st with portClosed := true, playbackRate := 1 }
  else
    none

/-- An `interruptLastScheduledStretch(value, time)` request issued by the
    `silenceEnd` branch when the previous ramp has not finished. -/
structure Interrupt where
  value : ℚ
  time : ℚ
  deriving DecidableEq, Repr

/-- The `silenceStart` branch of `_silenceDetectorNode.port.onmessage`:
    sets the rate to `silenceSpeed`, schedules the decay ramp
    `stretch(stretcherDelayStartValue, 0, startTime, endTime)` and records it
    as the new `lastScheduledStretcherDelayReset`.  Returns the new state and
    the scheduled ramp. -/
def handleSilenceStart (st : ControllerState) (eventTime : ℚ) :
    ControllerState × StretchInfo :=
  let settings := st.settings
  let oldRealtimeMargin := getRealtimeMargin settings.marginBefore settings.soundedSpeed
  let stretcherDelayStartValue :=
    getStretcherSoundedDelay settings.marginBefore settings.soundedSpeed settings.silenceSpeed
  let startIn :=
    getTotalDelay st.lookaheadDelayValue stretcherDelayStartValue - oldRealtimeMargin
  let speedUpBy := settings.silenceSpeed / settings.soundedSpeed
  let originalRealtimeSpeed : ℚ := 1
  let delayDecreaseSpeed := speedUpBy - originalRealtimeSpeed
  let snippetNewDuration := stretcherDelayStartValue / delayDecreaseSpeed
  let startTime := eventTime + startIn
  let endTime := startTime + snippetNewDuration
  let stretch : StretchInfo :=
    { startTime := startTime
      startValue := stretcherDelayStartValue
      endTime := endTime
      endValue := 0 }
  let lastReset : LastReset :=
    { newSpeedStartInputTime := eventTime
      startTime := startTime
      startValue := stretcherDelayStartValue
      endTime := endTime
      endValue := 0 }
  ({ st with
      playbackRate := settings.silenceSpeed
      lastScheduledStretcherDelayReset := some lastReset },
   stretch)

/-- The `silenceEnd` branch of `_silenceDetectorNode.port.onmessage`:
    sets the rate to `soundedSpeed`, splits `marginBefore` into the part
    still at silence speed and the part already at sounded speed, maps the
    margin start through `getMomentOutputTime`, optionally interrupts the
    in-flight reset ramp, and schedules the stretch ramp.  `none` when no
    reset has ever been scheduled (the JS would throw on the `null`).
    Returns the new state, the interrupt request (if any) and the ramp. -/
def handleSilenceEnd (st : ControllerState) (eventTime : ℚ) :
    Option (ControllerState × Option Interrupt × StretchInfo) :=
  match st.lastScheduledStretcherDelayReset with
  | none => none
  | some lastReset =>
    let settings := st.settings
    let lastSilenceSpeedLastsForRealtime := eventTime - lastReset.newSpeedStartInputTime
    let lastSilenceSpeedLastsForVideoTime :=
      lastSilenceSpeedLastsForRealtime * settings.silenceSpeed
    let marginBeforePartAtSilenceSpeedVideoTimeDuration :=
      min lastSilenceSpeedLastsForVideoTime settings.marginBefore
    let marginBeforePartAlreadyAtSoundedSpeedVideoTimeDuration :=
      settings.marginBefore - marginBeforePartAtSilenceSpeedVideoTimeDuration
    let marginBeforePartAtSilenceSpeedRealTimeDuration :=
      marginBeforePartAtSilenceSpeedVideoTimeDuration / settings.silenceSpeed
    let marginBeforePartAlreadyAtSoundedSpeedRealTimeDuration :=
      marginBeforePartAlreadyAtSoundedSpeedVideoTimeDuration / settings.soundedSpeed
    let marginBeforeStartInputTime :=
      eventTime - marginBeforePartAtSilenceSpeedRealTimeDuration
        - marginBeforePartAlreadyAtSoundedSpeedRealTimeDuration
    let marginBeforeStartOutputTime :=
      getMomentOutputTime marginBeforeStartInputTime st.lookaheadDelayValue
        lastReset.toStretchInfo
    let marginBeforeStartOutputTimeTotalDelay :=
      marginBeforeStartOutputTime - marginBeforeStartInputTime
    let marginBeforeStartOutputTimeStretcherDelay :=
      marginBeforeStartOutputTimeTotalDelay - st.lookaheadDelayValue
    let interrupt : Option Interrupt :=
      if marginBeforeStartOutputTime < lastReset.endTime then
        some { value := marginBeforeStartOutputTimeStretcherDelay
               time := marginBeforeStartOutputTime }
      else
        none
    let marginBeforePartAtSilenceSpeedStartOutputTime :=
      marginBeforeStartOutputTime + marginBeforePartAlreadyAtSoundedSpeedRealTimeDuration
    let stretcherDelayIncrease :=
      getStretcherDelayChange marginBeforePartAtSilenceSpeedRealTimeDuration
        settings.silenceSpeed settings.soundedSpeed
    let finalStretcherDelay := marginBeforeStartOutputTimeStretcherDelay + stretcherDelayIncrease
    let stretch : StretchInfo :=
      { startTime := marginBeforePartAtSilenceSpeedStartOutputTime
        startValue := marginBeforeStartOutputTimeStretcherDelay
        endTime := eventTime + getTotalDelay st.lookaheadDelayValue finalStretcherDelay
        endValue := finalStretcherDelay }
    some ({ st with playbackRate := settings.soundedSpeed }, interrupt, stretch)

/-! ### Theorems -/

/-- C1: for every `momentTime`, `lookaheadDelay` and tracked last schedule
    satisfying the TimeMapper's precondition (the answer is at or after the
    schedule's `startTime`), the input-to-output time mapping returns
    `momentTime + lookaheadDelay + lastSchedule.endValue` when
    `momentTime + (lookaheadDelay + lastSchedule.endValue) ≥ lastSchedule.endTime`,
    and otherwise returns
    `lastSchedule.startTime + ((momentTime + lookaheadDelay + lastSchedule.startValue) - lastSchedule.startTime) / m`
    with `m = ((endTime - startTime) + (startValue - endValue)) / (endTime - startTime)`. -/
theorem getStretcherDelayForInputMoment_two_cases
    (momentTime lookaheadDelay : ℚ) (lastSchedule : StretchInfo)
    (_hpre : lastSchedule.startTime ≤
      getStretcherDelayForInputMoment momentTime lookaheadDelay lastSchedule) :
    (momentTime + (lookaheadDelay + lastSchedule.endValue) ≥ lastSchedule.endTime →
      getStretcherDelayForInputMoment momentTime lookaheadDelay lastSchedule =
        momentTime + lookaheadDelay + lastSchedule.endValue) ∧
    (¬ (momentTime + (lookaheadDelay + lastSchedule.endValue) ≥ lastSchedule.endTime) →
      getStretcherDelayForInputMoment momentTime lookaheadDelay lastSchedule =
        lastSchedule.startTime +
          ((momentTime + lookaheadDelay + lastSchedule.startValue) - lastSchedule.startTime) /
            (((lastSchedule.endTime - lastSchedule.startTime) +
                (lastSchedule.startValue - lastSchedule.endValue)) /
              (lastSchedule.endTime - lastSchedule.startTime))) := by
  constructor <;> intro h <;>
    simp only [getStretcherDelayForInputMoment, getDelayFromInputToStretcherOutput,
      getStretchSpeedChangeMultiplier]
  · rw [if_pos h]; ring
  · rw [if_neg h]; ring_nf

/-- Witness for C1 at `momentTime = 5`, `lookaheadDelay = 0` and the schedule
    `{startTime := 0, startValue := 1, endTime := 2, endValue := 0}` (which
    satisfies the precondition, and lands in the first branch). -/
theorem getStretcherDelayForInputMoment_two_cases_witness :
    (StretchInfo.mk 0 1 2 0).startTime ≤
      getStretcherDelayForInputMoment 5 0 (StretchInfo.mk 0 1 2 0) ∧
    getStretcherDelayForInputMoment 5 0 (StretchInfo.mk 0 1 2 0) =
      5 + 0 + (StretchInfo.mk 0 1 2 0).endValue :=
  ⟨by norm_num [getStretcherDelayForInputMoment, getDelayFromInputToStretcherOutput],
   (getStretcherDelayForInputMoment_two_cases 5 0 (StretchInfo.mk 0 1 2 0)
      (by norm_num [getStretcherDelayForInputMoment, getDelayFromInputToStretcherOutput])).1
     (by norm_num)⟩

/-- C9: `transformSpeed` is idempotent — its result is never strictly inside
    the exclusion band around `1.0`, so applying the clamp twice changes
    nothing. -/
theorem transformSpeed_idempotent (s : ℚ) :
    transformSpeed (transformSpeed s) = transformSpeed s := by
  have edgeLow : transformSpeed (1 - ((1.002 : ℚ) - 1)) = 1 - ((1.002 : ℚ) - 1) := by
    norm_num [transformSpeed]
  have edgeHigh : transformSpeed (1.002 : ℚ) = (1.002 : ℚ) := by
    norm_num [transformSpeed]
  by_cases h : 1 - ((1.002 : ℚ) - 1) < s ∧ s < (1.002 : ℚ)
  · have hcases : transformSpeed s = 1 - ((1.002 : ℚ) - 1) ∨
        transformSpeed s = (1.002 : ℚ) := by
      simp only [transformSpeed]
      rw [if_pos h]
      split_ifs <;> simp
    rcases hcases with h1 | h1 <;> rw [h1]
    · exact edgeLow
    · exact edgeHigh
  · have h1 : transformSpeed s = s := by
      simp only [transformSpeed]
      rw [if_neg h]
    rw [h1]
    exact h1

/-- C4 counterexample: `1.0015` lies strictly inside the exclusion band
    `(0.998, 1.002)` and is strictly nearer to the upper edge `1.002`, yet
    `transformSpeed` returns the lower edge `0.998`, not the nearer edge. -/
theorem transformSpeed_nearer_edge_cex :
    ((1 : ℚ) - ((1.002 : ℚ) - 1) < 1.0015 ∧ (1.0015 : ℚ) < 1.002) ∧
    ((1.002 : ℚ) - 1.0015 < (1.0015 : ℚ) - (1 - ((1.002 : ℚ) - 1))) ∧
    transformSpeed (1.0015 : ℚ) = 1 - ((1.002 : ℚ) - 1) ∧
    transformSpeed (1.0015 : ℚ) ≠ (1.002 : ℚ) := by
  norm_num [transformSpeed]

/-- C4 amended: for every speed strictly inside the exclusion band
    `(0.998, 1.002)` around `1.0`, `transformSpeed` returns the lower band
    edge *exactly when* the input is strictly nearer the upper edge, and the
    upper band edge *exactly when* it is not (which includes the tie at
    `1.0`) — i.e. it snaps to the *farther* edge, the distance of the result
    from the input being the larger of the two edge distances; for every
    speed outside or on the band edges it returns the input unchanged. -/
theorem transformSpeed_farther_edge (s : ℚ) :
    ((1 - ((1.002 : ℚ) - 1) < s ∧ s < (1.002 : ℚ)) →
      (transformSpeed s = 1 - ((1.002 : ℚ) - 1) ↔
        (1.002 : ℚ) - s < s - (1 - ((1.002 : ℚ) - 1))) ∧
      (transformSpeed s = (1.002 : ℚ) ↔
        s - (1 - ((1.002 : ℚ) - 1)) ≤ (1.002 : ℚ) - s) ∧
      |transformSpeed s - s| = max ((1.002 : ℚ) - s) (s - (1 - ((1.002 : ℚ) - 1)))) ∧
    (¬ (1 - ((1.002 : ℚ) - 1) < s ∧ s < (1.002 : ℚ)) → transformSpeed s = s) := by
  have hedges : (1 : ℚ) - ((1.002 : ℚ) - 1) ≠ (1.002 : ℚ) := by norm_num
  constructor
  · intro h
    have hval : transformSpeed s =
        if (1.002 : ℚ) - s < s - (1 - ((1.002 : ℚ) - 1)) then 1 - ((1.002 : ℚ) - 1)
        else (1.002 : ℚ) := by
      simp only [transformSpeed]
      rw [if_pos h]
    by_cases hd : (1.002 : ℚ) - s < s - (1 - ((1.002 : ℚ) - 1))
    · rw [hval, if_pos hd]
      refine ⟨iff_of_true rfl hd, iff_of_false hedges (not_le.mpr hd), ?_⟩
      rw [abs_of_nonpos (by linarith [h.1]), max_eq_right (le_of_lt hd)]
      ring
    · rw [hval, if_neg hd]
      refine ⟨iff_of_false (Ne.symm hedges) hd, iff_of_true rfl (le_of_not_lt hd), ?_⟩
      rw [abs_of_nonneg (by linarith [h.2]), max_eq_left (by linarith)]
  · intro h
    simp only [transformSpeed]
    rw [if_neg h]

/-- Witness for C4's amended theorem at `s = 1`, the tie case: both edges are
    at distance `0.002` and the result is the *upper* edge `1.002`. -/
theorem transformSpeed_farther_edge_witness :
    transformSpeed 1 = (1.002 : ℚ) :=
  (((transformSpeed_farther_edge 1).1 (by norm_num)).2.1).mpr (by norm_num)

/-- A concrete settings snapshot: `soundedSpeed = 1.75`, `silenceSpeed = 4`,
    `marginBefore = 0.4`, `volumeThreshold = 0.01`, `durationThreshold = 0.1`. -/
def exampleSettingsA : Settings :=
  { soundedSpeed := 7/4
    silenceSpeed := 4
    marginBefore := 2/5
    volumeThreshold := 1/100
    durationThreshold := 1/10 }

/-- The same snapshot with only `marginBefore` changed to `0.2`. -/
def exampleSettingsB : Settings :=
  { exampleSettingsA with marginBefore := 1/5 }

/-- C5 counterexample: two settings snapshots that agree on
    `durationThreshold`, `soundedSpeed` and `silenceSpeed` (hence on any
    "active speed") but differ in `marginBefore` produce *different*
    silence-detector duration-threshold parameters when applied to the same
    controller — so the parameter is not a function of
    `settings.durationThreshold` and the active speed. -/
theorem durationThresholdParam_ignores_setting_cex :
    exampleSettingsA.durationThreshold = exampleSettingsB.durationThreshold ∧
    exampleSettingsA.soundedSpeed = exampleSettingsB.soundedSpeed ∧
    exampleSettingsA.silenceSpeed = exampleSettingsB.silenceSpeed ∧
    (setStateAccordingToSettings (initController 2 exampleSettingsA) exampleSettingsA
        none).durationThresholdParam ≠
      (setStateAccordingToSettings (initController 2 exampleSettingsA) exampleSettingsB
        none).durationThresholdParam := by
  norm_num [setStateAccordingToSettings, initController, exampleSettingsA, exampleSettingsB,
    getSilenceDetectorNodeDurationThreshold, getRealtimeMargin]

/-- C5 amended: the duration-threshold parameter handed to the silence
    detector equals `newSettings.marginBefore / newSettings.soundedSpeed`
    (the margin-before converted to real time at sounded speed); it does not
    depend on `settings.durationThreshold`. -/
theorem durationThresholdParam_eq_realtime_margin (st : ControllerState)
    (newSettings : Settings) (oldSettings : Option Settings) :
    (setStateAccordingToSettings st newSettings oldSettings).durationThresholdParam =
      newSettings.marginBefore / newSettings.soundedSpeed := by
  cases oldSettings <;>
    simp only [setStateAccordingToSettings, getSilenceDetectorNodeDurationThreshold,
      getRealtimeMargin]

/-- Helper: with `marginBefore = 0` the steady-state sounded delay is `0`. -/
theorem getStretcherSoundedDelay_zero_margin (soundedSpeed silenceSpeed : ℚ) :
    getStretcherSoundedDelay 0 soundedSpeed silenceSpeed = 0 := by
  simp [getStretcherSoundedDelay, getStretcherDelayChange, getNewSnippetDuration]

/-- C2: with `soundedSpeed = 1.75`, `silenceSpeed = 4`, `marginBefore = 0.4`
    (exact rationals `7/4`, `4`, `2/5`), the ramp scheduled on `SilenceStart`
    starts at `getStretcherSoundedDelay(0.4, 1.75, 4) = 9/70`, ends at `0`,
    and lasts exactly `(9/70) / (4/1.75 - 1) = 1/10`. -/
theorem silenceStart_schedule_exact_values (st : ControllerState) (eventTime : ℚ)
    (hss : st.settings.soundedSpeed = 7/4) (hsl : st.settings.silenceSpeed = 4)
    (hm : st.settings.marginBefore = 2/5) :
    getStretcherSoundedDelay (2/5) (7/4) 4 = 9/70 ∧
    (handleSilenceStart st eventTime).2.startValue = 9/70 ∧
    (handleSilenceStart st eventTime).2.endValue = 0 ∧
    (handleSilenceStart st eventTime).2.endTime - (handleSilenceStart st eventTime).2.startTime =
      (9/70 : ℚ) / (4 / (7/4) - 1) ∧
    ((9/70 : ℚ) / (4 / (7/4) - 1)) = 1/10 := by
  refine ⟨?_, ?_, ?_, ?_, by norm_num⟩
  · norm_num [getStretcherSoundedDelay, getStretcherDelayChange, getNewSnippetDuration]
  · simp only [handleSilenceStart, hss, hsl, hm]
    norm_num [getStretcherSoundedDelay, getStretcherDelayChange, getNewSnippetDuration]
  · rfl
  · simp only [handleSilenceStart, hss, hsl, hm]
    norm_num [getStretcherSoundedDelay, getStretcherDelayChange, getNewSnippetDuration]

/-- Witness for C2 at a concrete controller (`initController 2 exampleSettingsA`)
    and `eventTime = 5`. -/
theorem silenceStart_schedule_exact_values_witness :
    getStretcherSoundedDelay (2/5) (7/4) 4 = 9/70 ∧
    (handleSilenceStart (initController 2 exampleSettingsA) 5).2.startValue = 9/70 ∧
    (handleSilenceStart (initController 2 exampleSettingsA) 5).2.endValue = 0 ∧
    (handleSilenceStart (initController 2 exampleSettingsA) 5).2.endTime -
        (handleSilenceStart (initController 2 exampleSettingsA) 5).2.startTime =
      (9/70 : ℚ) / (4 / (7/4) - 1) ∧
    ((9/70 : ℚ) / (4 / (7/4) - 1)) = 1/10 :=
  silenceStart_schedule_exact_values (initController 2 exampleSettingsA) 5 rfl rfl rfl

/-- C3: with `marginBefore = 0`, a `SilenceStart` at `t1` followed by a
    `SilenceEnd` at `t2 ≥ t1` schedules no actual stretch: the `SilenceStart`
    ramp has `startValue = endValue = 0` and `endTime = startTime`, the
    `SilenceEnd` ramp has delay increase `0` (`endValue = startValue`) and
    interrupts nothing, and the host playback rate is set to `silenceSpeed`
    resp. `soundedSpeed` immediately when each event is processed. -/
theorem marginBefore_zero_degenerate_schedules (st : ControllerState) (t1 t2 : ℚ)
    (hm : st.settings.marginBefore = 0) (hsl : 0 < st.settings.silenceSpeed)
    (h12 : t1 ≤ t2) :
    (handleSilenceStart st t1).1.playbackRate = st.settings.silenceSpeed ∧
    (handleSilenceStart st t1).2.startValue = 0 ∧
    (handleSilenceStart st t1).2.endValue = 0 ∧
    (handleSilenceStart st t1).2.endTime = (handleSilenceStart st t1).2.startTime ∧
    (∃ st2 intr s2,
      handleSilenceEnd (handleSilenceStart st t1).1 t2 = some (st2, intr, s2) ∧
      st2.playbackRate = st.settings.soundedSpeed ∧
      intr = none ∧
      s2.endValue = s2.startValue) := by
  have hsvd : getStretcherSoundedDelay st.settings.marginBefore st.settings.soundedSpeed
      st.settings.silenceSpeed = 0 := by
    rw [hm]; exact getStretcherSoundedDelay_zero_margin _ _
  have hmin : min ((t2 - t1) * st.settings.silenceSpeed) 0 = 0 :=
    min_eq_right (mul_nonneg (by linarith) hsl.le)
  refine ⟨rfl, ?_, rfl, ?_, ?_⟩
  · simp only [handleSilenceStart]
    exact hsvd
  · simp only [handleSilenceStart, hsvd]
    norm_num
  · refine ⟨_, _, _, rfl, rfl, ?_, ?_⟩
    · simp only [handleSilenceStart, handleSilenceEnd, getMomentOutputTime,
        getStretcherDelayForInputMoment, getTotalDelay, getDelayFromInputToStretcherOutput,
        getRealtimeMargin, hm, getStretcherSoundedDelay_zero_margin]
      norm_num [hmin]
      intro hlt
      rw [if_pos h12] at hlt
      exfalso
      linarith
    · simp only [handleSilenceStart, handleSilenceEnd, getMomentOutputTime,
        getStretcherDelayForInputMoment, getTotalDelay, getDelayFromInputToStretcherOutput,
        getRealtimeMargin, getStretcherDelayChange, getNewSnippetDuration, hm,
        getStretcherSoundedDelay_zero_margin]
      norm_num [hmin]

/-- Witness for C3 at `initController 2` of a zero-margin snapshot, with
    `t1 = 5`, `t2 = 6`. -/
theorem marginBefore_zero_degenerate_schedules_witness :
    (handleSilenceStart (initController 2 { exampleSettingsA with marginBefore := 0 })
        5).1.playbackRate =
      ({ exampleSettingsA with marginBefore := 0 } : Settings).silenceSpeed ∧
    (handleSilenceStart (initController 2 { exampleSettingsA with marginBefore := 0 })
        5).2.startValue = 0 ∧
    (handleSilenceStart (initController 2 { exampleSettingsA with marginBefore := 0 })
        5).2.endValue = 0 ∧
    (handleSilenceStart (initController 2 { exampleSettingsA with marginBefore := 0 })
        5).2.endTime =
      (handleSilenceStart (initController 2 { exampleSettingsA with marginBefore := 0 })
        5).2.startTime ∧
    (∃ st2 intr s2,
      handleSilenceEnd
          (handleSilenceStart (initController 2 { exampleSettingsA with marginBefore := 0 })
            5).1 6 = some (st2, intr, s2) ∧
      st2.playbackRate = ({ exampleSettingsA with marginBefore := 0 } : Settings).soundedSpeed ∧
      intr = none ∧
      s2.endValue = s2.startValue) :=
  marginBefore_zero_degenerate_schedules
    (initController 2 { exampleSettingsA with marginBefore := 0 }) 5 6 rfl
    (by norm_num [initController, setStateAccordingToSettings, exampleSettingsA])
    (by norm_num)

/-- C6: evaluation at the failing input.  Starting from settings
    `(soundedSpeed, silenceSpeed, marginBefore) = (1.75, 4, 0.4)` and calling
    `updateSettings({marginBefore: 0})`, the lookahead delay is recomputed
    from the *new* settings (it becomes `getNewLookaheadDelay(0, 1.75, 4)`),
    but the stretcher baseline delay is set from the *old* snapshot —
    `getStretcherSoundedDelay(0.4, 1.75, 4) = 9/70` — instead of the
    new-settings value `getStretcherSoundedDelay(0, 1.75, 4) = 0`, because
    `_setStateAccordingToSettings` reads `this.settings` before
    `updateSettings` replaces it. -/
theorem updateSettings_stretcherDelay_from_old_settings :
    (updateSettings (initController 2 exampleSettingsA)
        { marginBefore := some 0 }).settings.marginBefore = 0 ∧
    (updateSettings (initController 2 exampleSettingsA)
        { marginBefore := some 0 }).lookaheadDelayValue = getNewLookaheadDelay 0 (7/4) 4 ∧
    (updateSettings (initController 2 exampleSettingsA)
        { marginBefore := some 0 }).stretcherDelay = getStretcherSoundedDelay (2/5) (7/4) 4 ∧
    getStretcherSoundedDelay (2/5) (7/4) 4 = 9/70 ∧
    getStretcherSoundedDelay 0 (7/4) 4 = 0 ∧
    (9/70 : ℚ) ≠ 0 := by
  norm_num [updateSettings, mergeSettings, setStateAccordingToSettings, initController,
    exampleSettingsA, getNewLookaheadDelay, getStretcherSoundedDelay, getStretcherDelayChange,
    getNewSnippetDuration, getSilenceDetectorNodeDurationThreshold, getRealtimeMargin]

/-- An old settings snapshot whose two speeds coincide (`2` and `2`). -/
def exampleOldEqualSpeeds : Settings :=
  { soundedSpeed := 2
    silenceSpeed := 2
    marginBefore := 2/5
    volumeThreshold := 1/100
    durationThreshold := 1/10 }

/-- C7 counterexample: with `old.silenceSpeed = old.soundedSpeed = 2` and the
    current rate `2` (which equals `old.soundedSpeed`), applying new settings
    with `silenceSpeed = 4`, `soundedSpeed = 1.75` sets the rate to `4`
    (the new silence speed, because `silenceSpeed` is matched first), not to
    `new.soundedSpeed` as the claim's second implication requires. -/
theorem applySettings_equal_old_speeds_cex :
    ({ initController 2 exampleOldEqualSpeeds with playbackRate := 2 } :
        ControllerState).playbackRate = exampleOldEqualSpeeds.soundedSpeed ∧
    (setStateAccordingToSettings
        { initController 2 exampleOldEqualSpeeds with playbackRate := 2 }
        exampleSettingsA (some exampleOldEqualSpeeds)).playbackRate = 4 ∧
    exampleSettingsA.soundedSpeed = 7/4 ∧
    (4 : ℚ) ≠ 7/4 := by
  norm_num [setStateAccordingToSettings, initController, exampleSettingsA,
    exampleOldEqualSpeeds]

/-- C7 amended: the speed-selection step checks `old.silenceSpeed` first; if
    the current rate equals it the rate becomes `new.silenceSpeed`; otherwise
    if the rate equals `old.soundedSpeed` it becomes `new.soundedSpeed`;
    otherwise the rate is left unchanged.  (The original claim's
    `soundedSpeed` implication fails only when the two old speeds
    coincide.) -/
theorem applySettings_speed_selection (st : ControllerState)
    (newSettings oldSettings : Settings) :
    (st.playbackRate = oldSettings.silenceSpeed →
      (setStateAccordingToSettings st newSettings (some oldSettings)).playbackRate =
        newSettings.silenceSpeed) ∧
    (st.playbackRate ≠ oldSettings.silenceSpeed → st.playbackRate = oldSettings.soundedSpeed →
      (setStateAccordingToSettings st newSettings (some oldSettings)).playbackRate =
        newSettings.soundedSpeed) ∧
    (st.playbackRate ≠ oldSettings.silenceSpeed → st.playbackRate ≠ oldSettings.soundedSpeed →
      (setStateAccordingToSettings st newSettings (some oldSettings)).playbackRate =
        st.playbackRate) := by
  refine ⟨fun h => ?_, fun h1 h2 => ?_, fun h1 h2 => ?_⟩ <;>
    simp only [setStateAccordingToSettings]
  · rw [if_pos h]
  · rw [if_neg h1, if_pos h2]
  · rw [if_neg h1, if_neg h2]

/-- Witness for C7's amended theorem: current rate `4` equals the old
    snapshot's `silenceSpeed`, so the rate becomes the new snapshot's
    `silenceSpeed`. -/
theorem applySettings_speed_selection_witness :
    (setStateAccordingToSettings { initController 2 exampleSettingsA with playbackRate := 4 }
        exampleSettingsB (some exampleSettingsA)).playbackRate =
      exampleSettingsB.silenceSpeed :=
  (applySettings_speed_selection
      { initController 2 exampleSettingsA with playbackRate := 4 }
      exampleSettingsB exampleSettingsA).1 rfl

/-- C8 counterexample: a host whose pre-engine playback rate is `2` has rate
    `1`, not `2`, after `init` followed by `destroy` — `destroy` does not
    restore the pre-engine value (the source sets `playbackRate = 1` with a
    TODO about storing the initial speed). -/
theorem destroy_resets_rate_to_one_cex :
    (destroy (initController 2 exampleSettingsA)).map ControllerState.playbackRate = some 1 ∧
    (1 : ℚ) ≠ 2 := by
  norm_num [destroy, initController, setStateAccordingToSettings, exampleSettingsA]

/-- C8 amended: `destroy()` completes only once initialization has completed,
    closes the detector's message port, and sets the host's playback rate to
    the constant `1` (the default rate), regardless of the pre-engine
    value. -/
theorem destroy_sets_rate_to_one (st : ControllerState) (h : st.initialized = true) :
    ∃ st2, destroy st = some st2 ∧ st2.playbackRate = 1 ∧ st2.portClosed = true :=
  ⟨{ st with portClosed := true, playbackRate := 1 }, by simp [destroy, h], rfl, rfl⟩

/-- Witness for C8's amended theorem on a freshly initialized controller. -/
theorem destroy_sets_rate_to_one_witness :
    ∃ st2, destroy (initController 2 exampleSettingsA) = some st2 ∧
      st2.playbackRate = 1 ∧ st2.portClosed = true :=
  destroy_sets_rate_to_one (initController 2 exampleSettingsA) rfl

/-- C10: `updateSettings` frames the settings snapshot: each field absent
    from the patch keeps its previous value, each field present takes the
    patch's value, the resulting snapshot is exactly the merge and replaces
    the instance's settings — and it does so only after the derived state
    has been updated (the lookahead delay is derived from the merged
    snapshot, while the stretcher delay still reads the pre-update
    snapshot). -/
theorem updateSettings_frame (st : ControllerState) (patch : SettingsPatch) :
    ((∀ v, patch.soundedSpeed = some v →
        (updateSettings st patch).settings.soundedSpeed = v) ∧
      (patch.soundedSpeed = none →
        (updateSettings st patch).settings.soundedSpeed = st.settings.soundedSpeed)) ∧
    ((∀ v, patch.silenceSpeed = some v →
        (updateSettings st patch).settings.silenceSpeed = v) ∧
      (patch.silenceSpeed = none →
        (updateSettings st patch).settings.silenceSpeed = st.settings.silenceSpeed)) ∧
    ((∀ v, patch.marginBefore = some v →
        (updateSettings st patch).settings.marginBefore = v) ∧
      (patch.marginBefore = none →
        (updateSettings st patch).settings.marginBefore = st.settings.marginBefore)) ∧
    ((∀ v, patch.volumeThreshold = some v →
        (updateSettings st patch).settings.volumeThreshold = v) ∧
      (patch.volumeThreshold = none →
        (updateSettings st patch).settings.volumeThreshold = st.settings.volumeThreshold)) ∧
    ((∀ v, patch.durationThreshold = some v →
        (updateSettings st patch).settings.durationThreshold = v) ∧
      (patch.durationThreshold = none →
        (updateSettings st patch).settings.durationThreshold =
          st.settings.durationThreshold)) ∧
    (updateSettings st patch).settings = mergeSettings st.settings patch ∧
    (updateSettings st patch).lookaheadDelayValue =
      getNewLookaheadDelay (mergeSettings st.settings patch).marginBefore
        (mergeSettings st.settings patch).soundedSpeed
        (mergeSettings st.settings patch).silenceSpeed ∧
    (updateSettings st patch).stretcherDelay =
      getStretcherSoundedDelay st.settings.marginBefore st.settings.soundedSpeed
        st.settings.silenceSpeed := by
  refine ⟨⟨fun v h => ?_, fun h => ?_⟩, ⟨fun v h => ?_, fun h => ?_⟩,
    ⟨fun v h => ?_, fun h => ?_⟩, ⟨fun v h => ?_, fun h => ?_⟩,
    ⟨fun v h => ?_, fun h => ?_⟩, rfl, rfl, rfl⟩ <;>
  simp [updateSettings, mergeSettings, h]

/-- Witness for C10: patching only `marginBefore` to `0` sets the new
    snapshot's `marginBefore` to `0` and keeps its `soundedSpeed`. -/
theorem updateSettings_frame_witness :
    (updateSettings (initController 2 exampleSettingsA)
        { marginBefore := some 0 }).settings.marginBefore = 0 ∧
    (updateSettings (initController 2 exampleSettingsA)
        { marginBefore := some 0 }).settings.soundedSpeed =
      (initController 2 exampleSettingsA).settings.soundedSpeed :=
  ⟨(updateSettings_frame (initController 2 exampleSettingsA)
      { marginBefore := some 0 }).2.2.1.1 0 rfl,
   (updateSettings_frame (initController 2 exampleSettingsA)
      { marginBefore := some 0 }).1.2 rfl⟩

end Jumpcutter
